import Mathlib

/-!
Verification of the AI thumbnail generator (Next.js client page plus the
generate proxy route handler).  The client page's pure helpers
(composePrompt, truncate) and its submit / regenerate / history state
transitions are embedded as Lean functions; the proxy handler's
image-extraction logic is embedded over a structural model of the upstream
response.  JavaScript string truthiness (falsy iff empty) and
String.prototype.trim are modelled explicitly; string lengths count
characters, matching UTF-16 code-unit counts on the BMP strings involved.
-/

namespace Thumb

/-- JavaScript whitespace set used by String.prototype.trim
(WhiteSpace and LineTerminator code points). -/
def isJsWhitespace (c : Char) : Bool :=
  c = ' ' || c = '\t' || c = '\n' || c = '\r' ||
  c.toNat = 0x0B || c.toNat = 0x0C || c.toNat = 0x00A0 ||
  c.toNat = 0x1680 || (0x2000 ≤ c.toNat && c.toNat ≤ 0x200A) ||
  c.toNat = 0x2028 || c.toNat = 0x2029 || c.toNat = 0x202F ||
  c.toNat = 0x205F || c.toNat = 0x3000 || c.toNat = 0xFEFF

/-- JavaScript String.prototype.trim: strip leading and trailing whitespace. -/
def jsTrim (s : String) : String :=
  String.mk (((s.data.dropWhile isJsWhitespace).reverse.dropWhile isJsWhitespace).reverse)

/-- JavaScript `a || b` on strings: a string is falsy iff it is empty. -/
def jsOr (a b : String) : String :=
  if a = "" then b else a

inductive Category
  | Education | Cooking | Vlog | Gaming | Tech | Other
deriving DecidableEq, Repr

inductive Style
  | Minimal | Bold | Fun | Professional | Custom
deriving DecidableEq, Repr

inductive Vibe
  | Bright | Dark | Pastel | Neon | Custom
deriving DecidableEq, Repr

def Category.label : Category → String
  | .Education => "Education"
  | .Cooking => "Cooking"
  | .Vlog => "Vlog"
  | .Gaming => "Gaming"
  | .Tech => "Tech"
  | .Other => "Other"

def Style.label : Style → String
  | .Minimal => "Minimal"
  | .Bold => "Bold"
  | .Fun => "Fun"
  | .Professional => "Professional"
  | .Custom => "Custom"

def Vibe.label : Vibe → String
  | .Bright => "Bright"
  | .Dark => "Dark"
  | .Pastel => "Pastel"
  | .Neon => "Neon"
  | .Custom => "Custom"

structure FormAnswers where
  category : Category
  customCategory : String
  style : Style
  customStyle : String
  textOverlay : String
  vibe : Vibe
  customVibe : String
deriving DecidableEq, Repr

def DEFAULT_ANSWERS : FormAnswers :=
  { category := .Tech
    customCategory := ""
    style := .Minimal
    customStyle := ""
    textOverlay := ""
    vibe := .Bright
    customVibe := "" }

/-- The ternary `answers.category === "Other" ? answers.customCategory || "Other" : answers.category`. -/
def categoryText (a : FormAnswers) : String :=
  if a.category = Category.Other then jsOr a.customCategory "Other" else a.category.label

/-- The ternary `answers.style === "Custom" ? answers.customStyle || "Custom" : answers.style`. -/
def styleText (a : FormAnswers) : String :=
  if a.style = Style.Custom then jsOr a.customStyle "Custom" else a.style.label

/-- The ternary `answers.vibe === "Custom" ? answers.customVibe || "Custom" : answers.vibe`. -/
def vibeText (a : FormAnswers) : String :=
  if a.vibe = Vibe.Custom then jsOr a.customVibe "Custom" else a.vibe.label

def categoryClause (a : FormAnswers) : String :=
  "Category: " ++ categoryText a ++ "."

def styleClause (a : FormAnswers) : String :=
  "Style: " ++ styleText a ++ "."

def vibeClause (a : FormAnswers) : String :=
  "Colors/Vibe: " ++ vibeText a ++ "."

/-- The overlay ternary: `answers.textOverlay && answers.textOverlay.trim().length > 0`
is the truthy test on the raw string conjoined with a positive trimmed length. -/
def overlayClause (a : FormAnswers) : String :=
  if a.textOverlay ≠ "" ∧ 0 < (jsTrim a.textOverlay).length then
    "Include text overlay: \"" ++ jsTrim a.textOverlay ++ "\"."
  else
    "No text overlay."

def imageClause : String :=
  "Use the uploaded reference image as visual guidance."

def guidelinesClause : String :=
  "16:9 thumbnail composition, high contrast, no watermarks, suitable for social/YouTube."

/-- JavaScript Array.prototype.join with a separator. -/
def joinSep (sep : String) : List String → String
  | [] => ""
  | [x] => x
  | x :: xs => x ++ sep ++ joinSep sep xs

/-- The `parts` array built by composePrompt: the four clauses, the optional
reference-image clause, then always the guidelines clause. -/
def promptParts (a : FormAnswers) (hasImage : Bool) : List String :=
  ([categoryClause a, styleClause a, vibeClause a, overlayClause a]
    ++ (if hasImage then [imageClause] else []))
    ++ [guidelinesClause]

/-- composePrompt from src/app/page.tsx: `parts.join(" ")`. -/
def composePrompt (a : FormAnswers) (hasImage : Bool) : String :=
  joinSep " " (promptParts a hasImage)

/-- truncate from src/app/page.tsx: `s.length > n ? s.slice(0, n) + "…" : s`. -/
def truncate (s : String) (n : Nat) : String :=
  if s.length > n then String.mk (s.data.take n) ++ "…" else s

/-! ## Generate proxy route handler (the unnamed route file) -/

/-- A content part of an upstream candidate; inlineData, when present,
carries the base64 image payload. -/
structure Part where
  inlineData : Option String
deriving DecidableEq, Repr

structure Content where
  parts : Option (List Part)
deriving DecidableEq, Repr

structure Candidate where
  content : Option Content
deriving DecidableEq, Repr

/-- The upstream generateContent response, reduced to the fields the
handler reads: an optional array of candidates. -/
structure GenResponse where
  candidates : Option (List Candidate)
deriving DecidableEq, Repr

/-- Optional chaining `response.candidates?.[0]?.content?.parts` through
the first candidate. -/
def firstCandidateParts (r : GenResponse) : Option (List Part) :=
  match r.candidates with
  | none => none
  | some cs =>
    match cs.head? with
    | none => none
    | some c =>
      match c.content with
      | none => none
      | some content => content.parts

/-- The handler's `for (const part of parts) if (part.inlineData) return ...`
loop: data of the first part that carries inline data. -/
def findInlineData : List Part → Option String
  | [] => none
  | p :: rest =>
    match p.inlineData with
    | some d => some d
    | none => findInlineData rest

/-- A JSON response from the proxy: either a data_url success body or an
error body. -/
inductive ProxyBody
  | dataUrl (url : String)
  | err (message : String)
deriving DecidableEq, Repr

/-- The generate route's POST handler after a successful upstream call:
HTTP status paired with the JSON body it returns. -/
def generatePOST (r : GenResponse) : Nat × ProxyBody :=
  match firstCandidateParts r with
  | some parts =>
    match findInlineData parts with
    | some d => (200, ProxyBody.dataUrl ("data:image/png;base64," ++ d))
    | none => (500, ProxyBody.err "No image returned")
  | none => (500, ProxyBody.err "No image returned")

/-! ## Client page state machine -/

structure HistoryItem where
  data_url : String
  prompt : String
  answers : FormAnswers
  timestamp : Nat
deriving DecidableEq, Repr

inductive Route
  | generate
  | edit
deriving DecidableEq, Repr

/-- The JSON payload sent to a proxy: `{prompt}` for generate,
`{prompt, base64Image, mimeType}` for edit. -/
inductive Payload
  | generatePayload (prompt : String)
  | editPayload (prompt : String) (base64Image : String) (mimeType : String)
deriving DecidableEq, Repr

def Payload.prompt : Payload → String
  | .generatePayload p => p
  | .editPayload p _ _ => p

/-- JSON string escaping as performed by JSON.stringify on the payload
fields (quote, backslash and the common control characters). -/
def jsonEscape (s : String) : String :=
  String.join (s.data.map fun c =>
    if c = '"' then "\\\""
    else if c = '\\' then "\\\\"
    else if c = '\n' then "\\n"
    else if c = '\r' then "\\r"
    else if c = '\t' then "\\t"
    else String.mk [c])

/-- Stringify the payload as JSON.stringify does: the exact request body text sent by fetch. -/
def stringifyPayload : Payload → String
  | .generatePayload p =>
    "\x7b\"prompt\":\"" ++ jsonEscape p ++ "\"\x7d"
  | .editPayload p img mime =>
    "\x7b\"prompt\":\"" ++ jsonEscape p ++ "\",\"base64Image\":\"" ++ jsonEscape img
      ++ "\",\"mimeType\":\"" ++ jsonEscape mime ++ "\"\x7d"

/-- The outcome of one fetch round trip, as the client code observes it:
an ok response whose parsed JSON may or may not carry data_url, or a
non-2xx response whose body text was read (possibly empty after a
swallowed read failure). -/
inductive FetchResult
  | ok (dataUrl : Option String)
  | httpError (bodyText : String)
deriving DecidableEq, Repr

/-- The client state the submit/regenerate handlers read and write:
guided answers, the prompt textarea, the optional upload (already encoded
to base64 + MIME type), the displayed image, the surfaced error, the
history list, and the remembered last request. -/
structure ClientState where
  answers : FormAnswers
  prompt : String
  uploadFile : Option (String × String)
  imageUrl : String
  error : String
  history : List HistoryItem
  lastRequest : Option (Route × Payload)
deriving DecidableEq, Repr

/-- The submit-time `const activePrompt = (prompt || derivedPrompt).trim()` where
derivedPrompt = composePrompt(answers, Boolean(uploadFile)). -/
def effectivePrompt (s : ClientState) : String :=
  jsTrim (jsOr s.prompt (composePrompt s.answers s.uploadFile.isSome))

/-- The generic failure message with the optional truncated detail:
`` `... failed. ${details ? `Details: ${truncate(details, 300)}` : ""}` ``. -/
def failureMessage (generic details : String) : String :=
  generic ++ (if details ≠ "" then "Details: " ++ truncate details 300 else "")

/-- The shared tail of handleSubmit and handleRegenerate after the fetch:
non-ok responses raise the detailed failure message, an ok response with
no data_url raises the invalid-response message, and an ok response with
a data_url sets the image and prepends a HistoryItem built from the
prompt that was sent and the answers currently in state. -/
def applyFetchOutcome (s : ClientState) (usedPrompt : String) (f : FetchResult)
    (now : Nat) (generic : String) : ClientState :=
  match f with
  | .httpError body => { s with error := failureMessage generic body }
  | .ok none => { s with error := "Invalid response: missing data_url" }
  | .ok (some u) =>
    { s with
      imageUrl := u
      history :=
        { data_url := u, prompt := usedPrompt, answers := s.answers,
          timestamp := now } :: s.history }

/-- handleSubmit from src/app/page.tsx: clear the error, validate the
effective prompt, then build the payload for the route chosen by upload
presence, remember it, and fetch.  Returns the new state together with
the issued request, if any. -/
def handleSubmit (s : ClientState) (f : FetchResult) (now : Nat) :
    ClientState × Option (Route × Payload) :=
  let s0 : ClientState := { s with error := "" }
  let activePrompt := effectivePrompt s0
  if activePrompt = "" then
    ({ s0 with error := "Please provide a prompt or complete the guided answers." }, none)
  else
    match s0.uploadFile with
    | some (base64, mime) =>
      let payload := Payload.editPayload activePrompt base64 mime
      let s1 : ClientState := { s0 with lastRequest := some (Route.edit, payload) }
      (applyFetchOutcome s1 activePrompt f now "Edit request failed. ",
        some (Route.edit, payload))
    | none =>
      let payload := Payload.generatePayload activePrompt
      let s1 : ClientState := { s0 with lastRequest := some (Route.generate, payload) }
      (applyFetchOutcome s1 activePrompt f now "Generate request failed. ",
        some (Route.generate, payload))

/-- handleRegenerate from src/app/page.tsx: with no remembered request it
does nothing; otherwise it clears the error and re-fetches the remembered
route and payload, with no prompt validation, recording the history item
with the payload's prompt and the answers currently in state. -/
def handleRegenerate (s : ClientState) (f : FetchResult) (now : Nat) :
    ClientState × Option (Route × Payload) :=
  match s.lastRequest with
  | none => (s, none)
  | some (route, payload) =>
    let s0 : ClientState := { s with error := "" }
    (applyFetchOutcome s0 payload.prompt f now "Regenerate failed. ",
      some (route, payload))

/-- onAnswersChange instantiated at the category key: the keyed record
update `setAnswers((prev) => ({...prev, category: value}))`. -/
def onAnswersChangeCategory (s : ClientState) (v : Category) : ClientState :=
  { s with answers := { s.answers with category := v } }

/-- The route and body text of an issued fetch: the wire-level request. -/
def issuedWire : Option (Route × Payload) → Option (Route × String)
  | none => none
  | some (r, p) => some (r, stringifyPayload p)

/-! ## Helper lemmas -/

lemma mk_eq_empty_iff (l : List Char) : String.mk l = "" ↔ l = [] := by
  constructor
  · intro h
    have h2 := congrArg String.data h
    simpa using h2
  · intro h
    subst h
    rfl

lemma string_length_pos_iff (s : String) : 0 < s.length ↔ s ≠ "" := by
  cases s with
  | mk l =>
    rw [Ne, mk_eq_empty_iff]
    simpa [String.length] using List.length_pos

lemma jsTrim_empty : jsTrim "" = "" := rfl

lemma effectivePrompt_clearError (s : ClientState) :
    effectivePrompt { s with error := "" } = effectivePrompt s := rfl

lemma applyFetchOutcome_lastRequest (s : ClientState) (up : String) (f : FetchResult)
    (now : Nat) (g : String) :
    (applyFetchOutcome s up f now g).lastRequest = s.lastRequest := by
  cases f with
  | ok o => cases o <;> rfl
  | httpError b => rfl

lemma joinSep_append_last (sep g : String) :
    ∀ l : List String, l ≠ [] → joinSep sep (l ++ [g]) = joinSep sep l ++ sep ++ g := by
  intro l
  induction l with
  | nil => intro h; exact absurd rfl h
  | cons x xs ih =>
    intro _
    cases xs with
    | nil => rfl
    | cons y ys =>
      have h2 : joinSep sep ((y :: ys) ++ [g]) = joinSep sep (y :: ys) ++ sep ++ g :=
        ih (by simp)
      show x ++ sep ++ joinSep sep ((y :: ys) ++ [g]) = x ++ sep ++ joinSep sep (y :: ys) ++ sep ++ g
      rw [h2]
      simp [String.append_assoc]

lemma findInlineData_of_find? (ps : List Part) (p : Part) (d : String)
    (hf : ps.find? (fun q => q.inlineData.isSome) = some p)
    (hd : p.inlineData = some d) :
    findInlineData ps = some d := by
  induction ps with
  | nil => simp [List.find?] at hf
  | cons q rest ih =>
    cases hq : q.inlineData with
    | some d0 =>
      have hpos : (fun q => q.inlineData.isSome) q = true := by simp [hq]
      rw [List.find?_cons_of_pos (p := fun q => q.inlineData.isSome) rest hpos] at hf
      obtain rfl : q = p := by simpa using hf
      rw [hq] at hd
      obtain rfl : d0 = d := by simpa using hd
      simp [findInlineData, hq]
    | none =>
      have hneg : ¬((fun q => q.inlineData.isSome) q = true) := by simp [hq]
      rw [List.find?_cons_of_neg (p := fun q => q.inlineData.isSome) rest hneg] at hf
      simp [findInlineData, hq, ih hf]

lemma findInlineData_none (ps : List Part) (h : ∀ p ∈ ps, p.inlineData = none) :
    findInlineData ps = none := by
  induction ps with
  | nil => rfl
  | cons q rest ih =>
    have hq : q.inlineData = none := h q (by simp)
    simp [findInlineData, hq]
    exact ih fun p hp => h p (by simp [hp])

lemma truncate_length_le (s : String) (n : Nat) : (truncate s n).length ≤ n + 1 := by
  unfold truncate
  split
  · cases s with
    | mk l =>
      have h1 : (String.mk (l.take n) ++ "…").length = (l.take n).length + 1 := by
        simp [String.length, String.append]
      simp only [h1]
      have := List.length_take_le n l
      omega
  · omega

/-- Unfolding of handleSubmit with the error-clearing record update pushed
through: the branch on the validated prompt, then on upload presence. -/
lemma handleSubmit_eq (s : ClientState) (f : FetchResult) (now : Nat) :
    handleSubmit s f now =
      if effectivePrompt s = "" then
        ({ s with error := "Please provide a prompt or complete the guided answers." }, none)
      else
        match s.uploadFile with
        | some (b, m) =>
          (applyFetchOutcome
            { s with
              error := ""
              lastRequest := some (Route.edit, Payload.editPayload (effectivePrompt s) b m) }
            (effectivePrompt s) f now "Edit request failed. ",
           some (Route.edit, Payload.editPayload (effectivePrompt s) b m))
        | none =>
          (applyFetchOutcome
            { s with
              error := ""
              lastRequest := some (Route.generate, Payload.generatePayload (effectivePrompt s)) }
            (effectivePrompt s) f now "Generate request failed. ",
           some (Route.generate, Payload.generatePayload (effectivePrompt s))) := rfl

/-! ## Concrete inputs used by counterexamples and witnesses -/

/-- FormAnswers whose category is the escape value with a whitespace-only
(but non-empty, hence JS-truthy) custom category. -/
def cexC1 : FormAnswers :=
  { DEFAULT_ANSWERS with category := .Other, customCategory := " " }

/-- A 301-character response body: one character past the truncation limit. -/
def cexBody : String :=
  String.mk (List.replicate 301 'a')

/-- A plain client state with a one-character manual prompt and no upload. -/
def simpleState : ClientState :=
  { answers := DEFAULT_ANSWERS
    prompt := "p"
    uploadFile := none
    imageUrl := ""
    error := ""
    history := []
    lastRequest := none }

/-- A client state whose manual prompt is a single space, so the effective
prompt trims to the empty string. -/
def blankPromptState : ClientState :=
  { simpleState with prompt := " " }

/-- An upstream response whose first candidate has a text-only part followed
by an inline-data part. -/
def rEx : GenResponse :=
  { candidates := some
      [{ content := some
          { parts := some [{ inlineData := none }, { inlineData := some "QUJD" }] } }] }

/-- An upstream response with no candidates at all. -/
def rNoCand : GenResponse :=
  { candidates := none }

/-- The client state at page start for the regeneration scenario: the prompt
textarea holds the derived prompt for the default answers. -/
def regenStart : ClientState :=
  { simpleState with prompt := composePrompt DEFAULT_ANSWERS false }

/-- The stale history item recorded by the regeneration scenario: the prompt
derived from the default answers paired with answers edited afterwards. -/
def staleItem : HistoryItem :=
  { data_url := "img2"
    prompt := composePrompt DEFAULT_ANSWERS false
    answers := { DEFAULT_ANSWERS with category := .Gaming }
    timestamp := 2 }

/-- A client state remembering a generate request with prompt "orig". -/
def rememberedState : ClientState :=
  { simpleState with lastRequest := some (Route.generate, Payload.generatePayload "orig") }

/-- A client state with an uploaded reference image already encoded, so a
submission takes the edit route. -/
def editState : ClientState :=
  { simpleState with uploadFile := some ("abc", "image/png") }

/-! ## Claims -/

/-- Claim C7: composing the prompt from the default answers (Tech, Minimal,
Bright, no overlay) with no upload yields exactly the documented string. -/
theorem C7_default_prompt :
    composePrompt DEFAULT_ANSWERS false =
      "Category: Tech. Style: Minimal. Colors/Vibe: Bright. No text overlay. 16:9 thumbnail composition, high contrast, no watermarks, suitable for social/YouTube." := by
  decide

/-- Claim C9: for every FormAnswers and every value of the has-image flag,
the composed prompt ends with the fixed guidelines clause; here as an
explicit decomposition into a prefix followed by that clause. -/
theorem C9_ends_with_guidelines (a : FormAnswers) (hasImage : Bool) :
    ∃ p, composePrompt a hasImage = p ++ guidelinesClause := by
  refine ⟨joinSep " " ([categoryClause a, styleClause a, vibeClause a, overlayClause a]
    ++ (if hasImage then [imageClause] else [])) ++ " ", ?_⟩
  have hne : ([categoryClause a, styleClause a, vibeClause a, overlayClause a]
      ++ (if hasImage then [imageClause] else [])) ≠ [] := by
    cases hasImage <;> simp
  rw [composePrompt, promptParts, joinSep_append_last " " guidelinesClause _ hne]

/-- Claim C8: the overlay clause of composePrompt quotes the trimmed overlay
text when it trims to a non-empty string, and is exactly "No text overlay."
otherwise. -/
theorem C8_overlay_clause (a : FormAnswers) :
    (jsTrim a.textOverlay ≠ "" →
      overlayClause a = "Include text overlay: \"" ++ jsTrim a.textOverlay ++ "\".")
    ∧ (jsTrim a.textOverlay = "" → overlayClause a = "No text overlay.") := by
  constructor
  · intro h
    have h1 : a.textOverlay ≠ "" := by
      intro he
      apply h
      rw [he]
      rfl
    have h2 : 0 < (jsTrim a.textOverlay).length := (string_length_pos_iff _).mpr h
    rw [overlayClause, if_pos ⟨h1, h2⟩]
  · intro h
    have hneg : ¬(a.textOverlay ≠ "" ∧ 0 < (jsTrim a.textOverlay).length) := by
      rintro ⟨-, h2⟩
      rw [h] at h2
      simp [String.length] at h2
    rw [overlayClause, if_neg hneg]

/-- Witness for C8: the overlay field " 5 Tips " trims to "5 Tips" and is
quoted; the default empty overlay yields "No text overlay.". -/
theorem C8_overlay_clause_witness :
    overlayClause { DEFAULT_ANSWERS with textOverlay := " 5 Tips " }
      = "Include text overlay: \"" ++ jsTrim " 5 Tips " ++ "\"."
    ∧ overlayClause DEFAULT_ANSWERS = "No text overlay." :=
  ⟨(C8_overlay_clause { DEFAULT_ANSWERS with textOverlay := " 5 Tips " }).1 (by decide),
   (C8_overlay_clause DEFAULT_ANSWERS).2 (by decide)⟩

/-- Claim C1, counterexample: with category set to "Other" and a
whitespace-only custom category " ", the category clause of the composed
prompt does NOT fall back to "Other"; the raw whitespace is interpolated,
because the JS fallback `customCategory || "Other"` fires only for the
empty string. -/
theorem C1_counterexample :
    cexC1.category = Category.Other
    ∧ jsTrim cexC1.customCategory = ""
    ∧ categoryClause cexC1 ≠ "Category: Other."
    ∧ composePrompt cexC1 false =
        "Category:  . Style: Minimal. Colors/Vibe: Bright. No text overlay. 16:9 thumbnail composition, high contrast, no watermarks, suitable for social/YouTube." := by
  refine ⟨rfl, rfl, by decide, by decide⟩

/-- Claim C1 (amended): when an enum field is set to its custom-escape value
and the matching free-text field is the EMPTY string, the corresponding
clause of composePrompt falls back to the literal escape label; a
whitespace-only non-empty custom field is used verbatim instead. -/
theorem C1_empty_custom_fallback (a : FormAnswers) :
    (a.category = Category.Other → a.customCategory = "" →
      categoryClause a = "Category: Other.")
    ∧ (a.style = Style.Custom → a.customStyle = "" →
      styleClause a = "Style: Custom.")
    ∧ (a.vibe = Vibe.Custom → a.customVibe = "" →
      vibeClause a = "Colors/Vibe: Custom.") := by
  refine ⟨fun h1 h2 => ?_, fun h1 h2 => ?_, fun h1 h2 => ?_⟩
  · rw [categoryClause, categoryText, if_pos h1, jsOr, if_pos h2]
    decide
  · rw [styleClause, styleText, if_pos h1, jsOr, if_pos h2]
    decide
  · rw [vibeClause, vibeText, if_pos h1, jsOr, if_pos h2]
    decide

/-- Witness for the amended C1: at an answers record with all three enum
fields on their escape values and empty custom fields, all three clauses
are the escape labels. -/
theorem C1_empty_custom_fallback_witness :
    categoryClause { DEFAULT_ANSWERS with category := .Other } = "Category: Other."
    ∧ styleClause { DEFAULT_ANSWERS with style := .Custom } = "Style: Custom."
    ∧ vibeClause { DEFAULT_ANSWERS with vibe := .Custom } = "Colors/Vibe: Custom." :=
  ⟨(C1_empty_custom_fallback { DEFAULT_ANSWERS with category := .Other }).1 rfl rfl,
   (C1_empty_custom_fallback { DEFAULT_ANSWERS with style := .Custom }).2.1 rfl rfl,
   (C1_empty_custom_fallback { DEFAULT_ANSWERS with vibe := .Custom }).2.2 rfl rfl⟩

set_option maxRecDepth 10000 in
/-- Claim C2, counterexample: for a 301-character response body the detail
string appended to the generic failure message has 301 characters, not at
most 300: the truncation keeps 300 characters and then appends an ellipsis
character. -/
theorem C2_counterexample :
    300 < (truncate cexBody 300).length
    ∧ (handleSubmit simpleState (FetchResult.httpError cexBody) 0).1.error
        = "Generate request failed. " ++ ("Details: " ++ truncate cexBody 300) := by
  constructor
  · decide
  · decide

/-- Claim C2 (amended): for every non-2xx proxy response whose body text has
been read and is non-empty — on the generate branch, the edit branch, and
regenerate alike — the surfaced error appends "Details: " plus the truncated
body to the respective generic failure message, and that truncated detail
has at most 301 characters (at most 300 characters of the body plus one
ellipsis). -/
theorem C2_truncated_detail (s : ClientState) (body : String) (now : Nat)
    (h3 : body ≠ "") :
    (effectivePrompt s ≠ "" → s.uploadFile = none →
      (handleSubmit s (FetchResult.httpError body) now).1.error
        = "Generate request failed. " ++ ("Details: " ++ truncate body 300))
    ∧ (∀ b m, effectivePrompt s ≠ "" → s.uploadFile = some (b, m) →
      (handleSubmit s (FetchResult.httpError body) now).1.error
        = "Edit request failed. " ++ ("Details: " ++ truncate body 300))
    ∧ (∀ r p, s.lastRequest = some (r, p) →
      (handleRegenerate s (FetchResult.httpError body) now).1.error
        = "Regenerate failed. " ++ ("Details: " ++ truncate body 300))
    ∧ (truncate body 300).length ≤ 301 := by
  refine ⟨?_, ?_, ?_, truncate_length_le body 300⟩
  · intro h1 h2
    rw [handleSubmit_eq, if_neg h1, h2]
    simp [applyFetchOutcome, failureMessage, h3]
  · intro b m h1 h2
    rw [handleSubmit_eq, if_neg h1, h2]
    simp [applyFetchOutcome, failureMessage, h3]
  · intro r p ht
    simp [handleRegenerate, ht, applyFetchOutcome, failureMessage, h3]

/-- Witness for the amended C2: a short body is appended verbatim after
"Details: " on all three paths — generate submit, edit submit, and
regenerate — and is within the 301-character bound. -/
theorem C2_truncated_detail_witness :
    (handleSubmit simpleState (FetchResult.httpError "boom") 0).1.error
      = "Generate request failed. " ++ ("Details: " ++ truncate "boom" 300)
    ∧ (handleSubmit editState (FetchResult.httpError "boom") 0).1.error
      = "Edit request failed. " ++ ("Details: " ++ truncate "boom" 300)
    ∧ (handleRegenerate rememberedState (FetchResult.httpError "boom") 0).1.error
      = "Regenerate failed. " ++ ("Details: " ++ truncate "boom" 300)
    ∧ (truncate "boom" 300).length ≤ 301 :=
  ⟨(C2_truncated_detail simpleState "boom" 0 (by decide)).1 (by decide) rfl,
   (C2_truncated_detail editState "boom" 0 (by decide)).2.1 "abc" "image/png" (by decide) rfl,
   (C2_truncated_detail rememberedState "boom" 0 (by decide)).2.2.1 Route.generate
     (Payload.generatePayload "orig") rfl,
   (C2_truncated_detail simpleState "boom" 0 (by decide)).2.2.2⟩

/-- Claim C3: for every upstream response, the generate POST handler returns
status 200 with a data_url built from the first part of the first candidate
that carries inline data; when the first candidate yields parts none of
which carry inline data, or yields no parts at all, it returns status 500
with the "No image returned" error body. -/
theorem C3_first_inline_part (r : GenResponse) :
    (∀ ps p d, firstCandidateParts r = some ps →
      ps.find? (fun q => q.inlineData.isSome) = some p →
      p.inlineData = some d →
      generatePOST r = (200, ProxyBody.dataUrl ("data:image/png;base64," ++ d)))
    ∧ (∀ ps, firstCandidateParts r = some ps →
      (∀ p ∈ ps, p.inlineData = none) →
      generatePOST r = (500, ProxyBody.err "No image returned"))
    ∧ (firstCandidateParts r = none →
      generatePOST r = (500, ProxyBody.err "No image returned")) := by
  refine ⟨?_, ?_, ?_⟩
  · intro ps p d hps hf hd
    simp [generatePOST, hps, findInlineData_of_find? ps p d hf hd]
  · intro ps hps hall
    simp [generatePOST, hps, findInlineData_none ps hall]
  · intro hnone
    simp [generatePOST, hnone]

/-- Witness for C3: a first candidate whose second part carries inline data
"QUJD" yields the PNG data URL; a response with no candidates yields the
500 error body. -/
theorem C3_first_inline_part_witness :
    generatePOST rEx = (200, ProxyBody.dataUrl "data:image/png;base64,QUJD")
    ∧ generatePOST rNoCand = (500, ProxyBody.err "No image returned") := by
  constructor
  · have h := (C3_first_inline_part rEx).1
      [{ inlineData := none }, { inlineData := some "QUJD" }]
      { inlineData := some "QUJD" } "QUJD" rfl (by decide) rfl
    exact h.trans (by decide)
  · exact (C3_first_inline_part rNoCand).2.2 rfl

/-- Claim C4: when a submission issues a request, the remembered last request
is exactly the issued one, and a later regenerate from any state remembering
it reissues the same route with a byte-identical JSON body, with no prompt
validation (the request goes out for every remembered payload). -/
theorem C4_regenerate_identical (s : ClientState) (f g : FetchResult)
    (now later : Nat) (r : Route) (p : Payload)
    (hsub : (handleSubmit s f now).2 = some (r, p)) :
    (handleSubmit s f now).1.lastRequest = some (r, p)
    ∧ ∀ t : ClientState, t.lastRequest = some (r, p) →
        (handleRegenerate t g later).2 = some (r, p)
        ∧ issuedWire (handleRegenerate t g later).2 = issuedWire (handleSubmit s f now).2 := by
  have h1 : (handleSubmit s f now).1.lastRequest = some (r, p) := by
    rw [handleSubmit_eq] at hsub ⊢
    by_cases h : effectivePrompt s = ""
    · rw [if_pos h] at hsub
      simp at hsub
    · rw [if_neg h] at hsub ⊢
      cases hu : s.uploadFile with
      | none =>
        rw [hu] at hsub
        simpa [applyFetchOutcome_lastRequest] using hsub
      | some bm =>
        obtain ⟨b, m⟩ := bm
        rw [hu] at hsub
        simpa [applyFetchOutcome_lastRequest] using hsub
  refine ⟨h1, fun t ht => ?_⟩
  have hreg : (handleRegenerate t g later).2 = some (r, p) := by
    simp [handleRegenerate, ht]
  exact ⟨hreg, by rw [hreg, hsub]⟩

/-- Witness for C4: submitting with manual prompt "p" and no upload issues
a generate request; regenerating from the resulting state reissues the same
route and wire body. -/
theorem C4_regenerate_identical_witness :
    (handleSubmit simpleState (FetchResult.ok (some "u")) 0).1.lastRequest
        = some (Route.generate, Payload.generatePayload "p")
    ∧ (handleRegenerate (handleSubmit simpleState (FetchResult.ok (some "u")) 0).1
        (FetchResult.ok (some "v")) 1).2
        = some (Route.generate, Payload.generatePayload "p")
    ∧ issuedWire (handleRegenerate (handleSubmit simpleState (FetchResult.ok (some "u")) 0).1
        (FetchResult.ok (some "v")) 1).2
        = issuedWire (handleSubmit simpleState (FetchResult.ok (some "u")) 0).2 := by
  have h := C4_regenerate_identical simpleState (FetchResult.ok (some "u"))
    (FetchResult.ok (some "v")) 0 1 Route.generate (Payload.generatePayload "p") (by decide)
  exact ⟨h.1, (h.2 _ h.1).1, (h.2 _ h.1).2⟩

/-- Claim C5: when the effective prompt (manual prompt, falling back to the
derived prompt when the manual text is empty) trims to the empty string,
handleSubmit issues no request, sets the inline validation message, and
leaves the history unchanged. -/
theorem C5_empty_prompt_blocks (s : ClientState) (f : FetchResult) (now : Nat)
    (h : effectivePrompt s = "") :
    (handleSubmit s f now).2 = none
    ∧ (handleSubmit s f now).1.error
        = "Please provide a prompt or complete the guided answers."
    ∧ (handleSubmit s f now).1.history = s.history := by
  rw [handleSubmit_eq, if_pos h]
  exact ⟨rfl, rfl, rfl⟩

/-- Witness for C5: a whitespace-only manual prompt blocks the submission. -/
theorem C5_empty_prompt_blocks_witness :
    (handleSubmit blankPromptState (FetchResult.ok (some "u")) 0).2 = none
    ∧ (handleSubmit blankPromptState (FetchResult.ok (some "u")) 0).1.error
        = "Please provide a prompt or complete the guided answers."
    ∧ (handleSubmit blankPromptState (FetchResult.ok (some "u")) 0).1.history
        = blankPromptState.history :=
  C5_empty_prompt_blocks blankPromptState (FetchResult.ok (some "u")) 0 (by decide)

/-- Claim C6: a successful request prepends exactly one new HistoryItem to
the prior history, preserving the prior items and their order (the new list
is the new item consed onto the old one); every failing request leaves the
history unchanged.  Covers both submission and regeneration. -/
theorem C6_history (s : ClientState) (now : Nat) (u body : String) :
    (effectivePrompt s ≠ "" →
      (handleSubmit s (FetchResult.ok (some u)) now).1.history
        = { data_url := u, prompt := effectivePrompt s, answers := s.answers,
            timestamp := now } :: s.history)
    ∧ (handleSubmit s (FetchResult.httpError body) now).1.history = s.history
    ∧ (handleSubmit s (FetchResult.ok none) now).1.history = s.history
    ∧ (∀ r p, s.lastRequest = some (r, p) →
        (handleRegenerate s (FetchResult.ok (some u)) now).1.history
          = { data_url := u, prompt := p.prompt, answers := s.answers,
              timestamp := now } :: s.history)
    ∧ (handleRegenerate s (FetchResult.httpError body) now).1.history = s.history
    ∧ (handleRegenerate s (FetchResult.ok none) now).1.history = s.history := by
  refine ⟨?_, ?_, ?_, ?_, ?_, ?_⟩
  · intro h
    rw [handleSubmit_eq, if_neg h]
    cases hu : s.uploadFile with
    | none => simp [applyFetchOutcome]
    | some bm => obtain ⟨b, m⟩ := bm; simp [applyFetchOutcome]
  · rw [handleSubmit_eq]
    by_cases h : effectivePrompt s = ""
    · rw [if_pos h]
    · rw [if_neg h]
      cases hu : s.uploadFile with
      | none => simp [applyFetchOutcome]
      | some bm => obtain ⟨b, m⟩ := bm; simp [applyFetchOutcome]
  · rw [handleSubmit_eq]
    by_cases h : effectivePrompt s = ""
    · rw [if_pos h]
    · rw [if_neg h]
      cases hu : s.uploadFile with
      | none => simp [applyFetchOutcome]
      | some bm => obtain ⟨b, m⟩ := bm; simp [applyFetchOutcome]
  · intro r p ht
    simp [handleRegenerate, ht, applyFetchOutcome]
  · cases ht : s.lastRequest with
    | none => simp [handleRegenerate, ht]
    | some rp => obtain ⟨r, p⟩ := rp; simp [handleRegenerate, ht, applyFetchOutcome]
  · cases ht : s.lastRequest with
    | none => simp [handleRegenerate, ht]
    | some rp => obtain ⟨r, p⟩ := rp; simp [handleRegenerate, ht, applyFetchOutcome]

/-- Witness for C6: a successful submission from the plain state prepends
exactly the new item; a failing one leaves history unchanged. -/
theorem C6_history_witness :
    (handleSubmit simpleState (FetchResult.ok (some "url")) 7).1.history
      = { data_url := "url", prompt := effectivePrompt simpleState,
          answers := simpleState.answers, timestamp := 7 } :: simpleState.history
    ∧ (handleSubmit simpleState (FetchResult.httpError "x") 7).1.history
      = simpleState.history :=
  ⟨(C6_history simpleState 7 "url" "x").1 (by decide),
   (C6_history simpleState 7 "url" "x").2.1⟩

set_option maxRecDepth 100000 in
/-- Claim C10: a successful regeneration records a HistoryItem pairing the
remembered payload's prompt with the answers currently in state; in the
concrete scenario where the category is edited between submission and
regeneration, the stored answers differ from the answers the stored prompt
was derived from (recomposing from the stored answers gives a different
prompt). -/
theorem C10_stale_answers (t : ClientState) (r : Route) (p : Payload)
    (u : String) (later : Nat) (ht : t.lastRequest = some (r, p)) :
    (handleRegenerate t (FetchResult.ok (some u)) later).1.history
      = { data_url := u, prompt := p.prompt, answers := t.answers,
          timestamp := later } :: t.history
    ∧ ((handleRegenerate (onAnswersChangeCategory
          (handleSubmit regenStart (FetchResult.ok (some "img1")) 1).1 Category.Gaming)
          (FetchResult.ok (some "img2")) 2).1.history.head? = some staleItem
        ∧ staleItem.prompt = composePrompt DEFAULT_ANSWERS false
        ∧ staleItem.answers ≠ DEFAULT_ANSWERS
        ∧ composePrompt staleItem.answers false ≠ staleItem.prompt) := by
  constructor
  · simp [handleRegenerate, ht, applyFetchOutcome]
  · refine ⟨by decide, rfl, by decide, by decide⟩

/-- Witness for C10: regenerating from a state remembering a generate
request with prompt "orig" prepends an item holding that prompt and the
state's current answers. -/
theorem C10_stale_answers_witness :
    (handleRegenerate rememberedState (FetchResult.ok (some "u")) 3).1.history
      = { data_url := "u", prompt := (Payload.generatePayload "orig").prompt,
          answers := rememberedState.answers, timestamp := 3 } :: rememberedState.history :=
  (C10_stale_answers rememberedState Route.generate (Payload.generatePayload "orig")
    "u" 3 rfl).1

end Thumb
